import Mathlib

/-!
Shallow embedding of the `ai-rs` agent/tool/provider core
(crates/agent/src/agent.rs, crates/core/src/tools.rs,
crates/core/src/errors.rs, crates/anthropic/src/provider.rs, and the
earlier single-crate revision in src/types.rs, src/provider.rs,
src/anthropic.rs, src/agent.rs).

Conventions of the embedding:
* `serde_json::Value` is the inductive `Json` below.
* Rust `Result<T, E>` is `Except E T`, `Option<T>` is `Option T`.
* `HashMap` registries are association lists consulted with
  `List.lookup` (first binding wins, matching insert-overwrites-get).
* `f32` generation knobs are carried opaquely as `Rat`: the code never
  computes with them, it only passes them through.
* Async functions are pure functions; the HTTP transport is an explicit
  oracle argument `net : AnthropicRequest → Except AiError AnthropicResponse`.
* The agent loop, which is a `loop { .. }` in Rust, takes a fuel
  argument; `none` means the fuel ran out before the loop returned.
-/

/-- Minimal model of `serde_json::Value`. -/
inductive Json where
  | null : Json
  | bool (b : Bool) : Json
  | num (n : Int) : Json
  | str (s : String) : Json
  | arr (elems : List Json) : Json
  | obj (fields : List (String × Json)) : Json

/-- A single-quote character, used to build Rust format strings such as
`Tool '<name>' not found` without a quote literal. -/
def squote : String := String.singleton (Char.ofNat 39)

/-! ## Message model (src/types.rs; identical shapes are consumed by the
crates revision through `ai_core::types`) -/

/-- `SystemContent` — content parts for system messages. -/
inductive SystemContent where
  | text (text : String) : SystemContent
deriving DecidableEq

/-- `ImageContent` — image with flexible source types. -/
structure ImageContent where
  url : Option String
  base64 : Option String
  mime_type : Option String
deriving DecidableEq

/-- `UserContent` — content parts for user messages. -/
inductive UserContent where
  | text (text : String) : UserContent
  | image (image : ImageContent) : UserContent
deriving DecidableEq

/-- `ToolCall` — tool call representation. -/
structure ToolCall where
  id : String
  name : String
  arguments : Json

/-- `ToolResult` (src/types.rs) — tool execution result. -/
structure ToolResult where
  tool_call_id : String
  result : Json
  is_error : Bool

/-- `AssistantContent` — content parts for assistant messages. -/
inductive AssistantContent where
  | text (text : String) : AssistantContent
  | toolCall (tool_call : ToolCall) : AssistantContent

/-- Message metadata: `Option<HashMap<String, serde_json::Value>>`. -/
def Metadata : Type := Option (List (String × Json))

/-- `Message` — role-tagged union with role-specific content. -/
inductive Message where
  | system (content : List SystemContent) (metadata : Metadata) : Message
  | user (content : List UserContent) (metadata : Metadata) : Message
  | assistant (content : List AssistantContent) (metadata : Metadata) : Message
  | tool (tool_results : List ToolResult) (metadata : Metadata) : Message

/-- `Message::add_text` — add text content (only for System and User). -/
def Message.add_text (m : Message) (text : String) : Message :=
  match m with
  | .system content metadata =>
      .system (content ++ [SystemContent.text text]) metadata
  | .user content metadata =>
      .user (content ++ [UserContent.text text]) metadata
  | _ => m

/-- `Message::add_image` — add image content (only for User). -/
def Message.add_image (m : Message) (image : ImageContent) : Message :=
  match m with
  | .user content metadata =>
      .user (content ++ [UserContent.image image]) metadata
  | _ => m

/-- `Message::add_tool_call` — add tool call (only for Assistant). -/
def Message.add_tool_call (m : Message) (tool_call : ToolCall) : Message :=
  match m with
  | .assistant content metadata =>
      .assistant (content ++ [AssistantContent.toolCall tool_call]) metadata
  | _ => m

/-- `Message::role`. -/
def Message.role : Message → String
  | .system _ _ => "system"
  | .user _ _ => "user"
  | .assistant _ _ => "assistant"
  | .tool _ _ => "tool"

/-- `FinishReason`. -/
inductive FinishReason where
  | stop | length | toolCalls | contentFilter | error
deriving DecidableEq

/-- `Usage` — token usage information. -/
structure Usage where
  prompt_tokens : Nat
  completion_tokens : Nat
  total_tokens : Nat
deriving DecidableEq

/-- `GenerationSettings`; the `f32` knobs are opaque `Rat` payloads. -/
structure GenerationSettings where
  temperature : Option Rat := none
  max_tokens : Option Nat := none
  top_p : Option Rat := none
  top_k : Option Nat := none
  frequency_penalty : Option Rat := none
  presence_penalty : Option Rat := none
  stop_sequences : Option (List String) := none
  seed : Option Nat := none

/-- `ToolDefinition` — tool definition for function calling. -/
structure ToolDefinition where
  name : String
  description : String
  parameters : Json

/-- `ChatRequest`. -/
structure ChatRequest where
  messages : List Message
  settings : GenerationSettings
  tools : Option (List ToolDefinition)

/-- `ChatResponse`. -/
structure ChatResponse where
  id : String
  message : Message
  finish_reason : FinishReason
  usage : Option Usage
  metadata : Metadata

/-- `MessageDelta` — delta content for streaming chunks. -/
inductive MessageDelta where
  | system (content : Option UserContent) : MessageDelta
  | user (content : Option UserContent) : MessageDelta
  | assistant (content : Option AssistantContent) : MessageDelta
  | tool (tool_result : Option ToolResult) : MessageDelta

/-- `ChatStreamChunk`. -/
structure ChatStreamChunk where
  id : String
  delta : MessageDelta
  finish_reason : Option FinishReason
  usage : Option Usage

/-! ## Error taxonomy (crates/core/src/errors.rs) -/

/-- `ProviderError`; `Duration` is seconds as `Nat`. -/
inductive ProviderError where
  | Authentication (provider message : String)
  | RateLimit (provider : String) (retry_after : Option Nat) (message : String)
  | ModelNotFound (provider model : String)
  | UnsupportedFeature (provider feature : String)
  | ApiError (provider : String) (status : Nat) (message : String)
deriving DecidableEq

/-- `NetworkError`. -/
inductive NetworkError where
  | ConnectionFailed (message : String)
  | Timeout (duration : Nat)
  | HttpError (status : Nat) (message : String)
  | DnsError (message : String)
deriving DecidableEq

/-- `SerializationError`. -/
inductive SerializationError where
  | JsonError (message : String)
  | SchemaValidation (message : String)
  | TypeMismatch (expected found : String)
deriving DecidableEq

/-- `ValidationError`. -/
inductive ValidationError where
  | MissingField (field : String)
  | InvalidValue (field message : String)
  | ConfigError (message : String)
deriving DecidableEq

/-- `ToolError`. -/
inductive ToolError where
  | NotFound (name : String)
  | ExecutionFailed (name error : String)
  | InvalidInput (name expected received : String)
  | StateMismatch (message : String)
  | NoHandler (name : String)
  | SerializationError (name error : String)
deriving DecidableEq

/-- `AgentError`. -/
inductive AgentError where
  | MaxStepsExceeded (steps max : Nat)
  | InvalidMessageSequence (message : String)
  | StreamingError (message : String)
  | StateError (message : String)
deriving DecidableEq

/-- `AiError` (crates/core revision). -/
inductive AiError where
  | Provider (e : ProviderError)
  | Tool (e : ToolError)
  | Agent (e : AgentError)
  | Network (e : NetworkError)
  | Serialization (e : SerializationError)
  | Validation (e : ValidationError)
deriving DecidableEq

/-- `ToolExecutionError` — tool-specific execution error. -/
inductive ToolExecutionError where
  | InvalidInput (msg : String)
  | StateError (msg : String)
  | ExecutionError (msg : String)
  | ExternalServiceError (service error : String)
  | Unauthorized (msg : String)
  | NotFound (msg : String)
deriving DecidableEq

/-- `Display for ToolExecutionError` (used by the loop for
`json!({"error": e.to_string()})`). -/
def ToolExecutionError.display : ToolExecutionError → String
  | .InvalidInput msg => "Invalid input: " ++ msg
  | .StateError msg => "State error: " ++ msg
  | .ExecutionError msg => "Execution error: " ++ msg
  | .ExternalServiceError service error =>
      "External service " ++ squote ++ service ++ squote ++ " error: " ++ error
  | .Unauthorized msg => "Unauthorized: " ++ msg
  | .NotFound msg => "Not found: " ++ msg

/-! ## Tool routing system (crates/core/src/tools.rs)

A typed handler goes through `ToolHandler::call` (decode the JSON input,
run the function) and the `ToolHandlerWrapper::call_erased` shell (take
the per-handler mutex, call, serialize the output with
`serde_json::to_value`).  The embedding keeps those stages explicit:
`decode` is `T::from_request`, `run` is the handler body with the cloned
state, `ser` is `serde_json::to_value` (`none` = serialization failure),
and `lockOk` says whether the mutex can be acquired (a poisoned lock in
Rust makes `lock()` return `Err`). -/

/-- A typed handler together with the registration-time machinery that
`ToolHandlerWrapper` erases. -/
structure ToolHandlerWrapper (σ α β : Type) where
  lockOk : Bool
  decode : Json → Except ToolExecutionError α
  run : σ → α → Except ToolExecutionError β
  ser : β → Option Json

/-- `ToolHandler::call`: parse the input with `T::from_request`, then run
the handler body on the (cloned) state and the parsed input. -/
def ToolHandler.call (w : ToolHandlerWrapper σ α β) (state : σ) (input : Json) :
    Except ToolExecutionError β :=
  match w.decode input with
  | .error e => .error e
  | .ok parsed_input => w.run state parsed_input

/-- `ToolHandlerWrapper::call_erased`: acquire the handler lock, call the
handler, serialize the result to JSON. -/
def call_erased (w : ToolHandlerWrapper σ α β) (state : σ) (input : Json) :
    Except ToolExecutionError Json :=
  if w.lockOk then
    match ToolHandler.call w state input with
    | .error e => .error e
    | .ok result =>
        match w.ser result with
        | some json_result => .ok json_result
        | none => .error (.ExecutionError "Failed to serialize result")
  else
    .error (.StateError "Failed to acquire handler lock")

/-- `ToolMetadata`; the `RootSchema` is opaque structured JSON. -/
structure ToolMetadata where
  name : String
  description : Option String
  parameters_schema : Option Json

/-- An entry of the `tools` registry map: the boxed
`dyn ErasedToolHandler<S>`, i.e. `call_erased` of some wrapper. -/
def ErasedToolHandler (σ : Type) : Type := σ → Json → Except ToolExecutionError Json

/-- `ToolRouter<S>` — type-safe tool registry (without state). -/
structure ToolRouter (σ : Type) where
  tools : List (String × ErasedToolHandler σ)
  metadata : List (String × ToolMetadata)

/-- `ToolRouter::new` / `default`. -/
def ToolRouter.new (σ : Type) : ToolRouter σ := ⟨[], []⟩

/-- `ToolRouter::register_infallible` (the registration entry point all
`register*` variants funnel into): insert the erased handler and the
metadata with the handler type's compile-time schema. -/
def ToolRouter.register_infallible (r : ToolRouter σ)
    (name : String) (description : Option String)
    (handler : ToolHandlerWrapper σ α β) (schema : Option Json) : ToolRouter σ :=
  { tools := (name, fun s j => call_erased handler s j) :: r.tools,
    metadata := (name, ⟨name, description, schema⟩) :: r.metadata }

/-- `ToolRouter::register_definition` — metadata only, no handler. -/
def ToolRouter.register_definition (r : ToolRouter σ)
    (name : String) (description : Option String)
    (parameters_schema : Option Json) : ToolRouter σ :=
  { tools := r.tools,
    metadata := (name, ⟨name, description, parameters_schema⟩) :: r.metadata }

/-- `BuiltToolRouter<S>` — built registry with state. -/
structure BuiltToolRouter (σ : Type) where
  tools : List (String × ErasedToolHandler σ)
  metadata : List (String × ToolMetadata)
  state : σ

/-- `ToolRouter::with_state` — bind the state, producing the built router. -/
def ToolRouter.with_state (r : ToolRouter σ) (state : σ) : BuiltToolRouter σ :=
  ⟨r.tools, r.metadata, state⟩

/-- `BuiltToolRouter::execute_tool`: `Some(call_erased ..)` when a handler
is registered, `None` when only metadata is registered (ends the agent
loop), `Some(Err(NotFound ..))` when the name is unknown entirely. -/
def BuiltToolRouter.execute_tool (r : BuiltToolRouter σ) (name : String)
    (input : Json) : Option (Except ToolExecutionError Json) :=
  match r.tools.lookup name with
  | some tool => some (tool r.state input)
  | none =>
      if (r.metadata.lookup name).isSome then
        none
      else
        some (.error (.NotFound ("Tool " ++ squote ++ name ++ squote ++ " not found")))

/-! ## Agent execution loop (crates/agent/src/agent.rs)

`RunUntil` is a predicate `should_continue (step, reason)`.  The three
shipped strategies (`MaxSteps`, `StopOnReason`, `RunUntilFirst`) never
mutate themselves, so the trait object is modelled as a plain function. -/

/-- The `RunUntil` capability: `should_continue(step, reason)`. -/
def RunUntil : Type := Nat → FinishReason → Bool

/-- `MaxSteps::should_continue`: continue while `step < max`. -/
def MaxSteps.should_continue (max : Nat) : RunUntil :=
  fun step _reason => step < max

/-- `StopOnReason::should_continue`: continue while the reason is not in
the configured set. -/
def StopOnReason.should_continue (reasons : List FinishReason) : RunUntil :=
  fun _step reason => ¬ reasons.contains reason

/-- `RunUntilFirst::should_continue`: logical AND of both strategies. -/
def RunUntilFirst.should_continue (first second : RunUntil) : RunUntil :=
  fun step reason => first step reason && second step reason

/-- `AgentResponse` — response from agent execution. -/
structure AgentResponse where
  messages : List Message
  final_message : Message
  steps : Nat
  finish_reason : FinishReason
  total_usage : Option Usage

/-- `AgentStreamChunk` — streaming chunk from agent execution. -/
structure AgentStreamChunk where
  step : Nat
  chunk : ChatStreamChunk
  is_final : Bool

/-- `GenerateConfig`; the provider is its pure `generate` function. -/
structure GenerateConfig (σ : Type) where
  provider : ChatRequest → Except AiError ChatResponse
  messages : List Message
  settings : GenerationSettings
  tools : Option (List ToolDefinition)
  tool_router : Option (BuiltToolRouter σ)
  run_until : RunUntil

/-- The tool calls collected from an assistant message's content
(`generate_text` lines 284-289). -/
def tool_calls_of (content : List AssistantContent) : List ToolCall :=
  content.filterMap fun c =>
    match c with
    | .toolCall tool_call => some tool_call
    | _ => none

/-- Tool calls of an arbitrary message (empty unless Assistant). -/
def tool_calls_of_message : Message → List ToolCall
  | .assistant content _ => tool_calls_of content
  | _ => []

/-- The JSON body the loop records for a failed call:
`json!({"error": e.to_string()})`. -/
def error_result_json (e : ToolExecutionError) : Json :=
  Json.obj [("error", Json.str e.display)]

/-- The tool-call batch processing of `generate_text` lines 296-327: walk
the calls in order; `Some(Ok)` appends a success result, `Some(Err)` an
`is_error` result, `None` sets `should_end_loop` and breaks.  Returns the
results accumulated before any break together with the flag. -/
def process_tool_calls (router : BuiltToolRouter σ) :
    List ToolCall → List ToolResult × Bool
  | [] => ([], false)
  | tc :: rest =>
      match router.execute_tool tc.name tc.arguments with
      | some (.ok result) =>
          let restProcessed := process_tool_calls router rest
          (⟨tc.id, result, false⟩ :: restProcessed.1, restProcessed.2)
      | some (.error e) =>
          let restProcessed := process_tool_calls router rest
          (⟨tc.id, error_result_json e, true⟩ :: restProcessed.1, restProcessed.2)
      | none => ([], true)

/-- Accumulate a step's usage into the running total
(`generate_text` lines 275-280). -/
def accumulate_usage (total : Usage) : Option Usage → Usage
  | some u =>
      ⟨total.prompt_tokens + u.prompt_tokens,
       total.completion_tokens + u.completion_tokens,
       total.total_tokens + u.total_tokens⟩
  | none => total

/-- The body of `generate_text`'s `loop`, with explicit state and fuel.
`none` means the fuel was exhausted before the loop returned. -/
def generate_text_go (cfg : GenerateConfig σ) :
    Nat → List Message → Nat → Usage → Bool →
    Option (Except AiError AgentResponse)
  | 0, _, _, _, _ => none
  | fuel + 1, messages, step, total_usage, has_usage =>
      let request : ChatRequest := ⟨messages, cfg.settings, cfg.tools⟩
      match cfg.provider request with
      | .error e => some (.error e)
      | .ok response =>
          let total_usage := accumulate_usage total_usage response.usage
          let has_usage := has_usage || response.usage.isSome
          let usageOpt : Option Usage := if has_usage then some total_usage else none
          let afterTools : AgentResponse ⊕ List Message :=
            match cfg.tool_router, response.message with
            | some router, .assistant content _ =>
                let tool_calls := tool_calls_of content
                if tool_calls.isEmpty then
                  .inr (messages ++ [response.message])
                else
                  let messages := messages ++ [response.message]
                  let processed := process_tool_calls router tool_calls
                  if processed.2 then
                    .inl ⟨messages, response.message, step + 1,
                          response.finish_reason, usageOpt⟩
                  else if processed.1.isEmpty then
                    .inr messages
                  else
                    .inr (messages ++ [Message.tool processed.1 none])
            | _, _ => .inr (messages ++ [response.message])
          match afterTools with
          | .inl resp => some (.ok resp)
          | .inr messages =>
              if ¬ cfg.run_until step response.finish_reason then
                some (.ok ⟨messages, response.message, step + 1,
                           response.finish_reason, usageOpt⟩)
              else
                generate_text_go cfg fuel messages (step + 1) total_usage has_usage

/-- `generate_text`: run the loop from the configured messages with
`step = 0` and zeroed usage accumulator. -/
def generate_text (cfg : GenerateConfig σ) (fuel : Nat) :
    Option (Except AiError AgentResponse) :=
  generate_text_go cfg fuel cfg.messages 0 ⟨0, 0, 0⟩ false

/-! ## Anthropic provider (crates/anthropic/src/provider.rs)

The HTTP transport is an oracle `net`; everything up to and after the
wire call is embedded as written.  `#[allow(dead_code)]` fields that the
code never reads (block indices aside) are elided. -/

/-- `AnthropicConfig`. -/
structure AnthropicConfig where
  api_key : String
  base_url : String
  model : String
  max_retries : Nat
  timeout_seconds : Nat

/-- `AnthropicImageSource`. -/
structure AnthropicImageSource where
  type : String
  media_type : String
  data : String

/-- `AnthropicContent`. -/
inductive AnthropicContent where
  | text (text : String)
  | image (source : AnthropicImageSource)
  | toolUse (id name : String) (input : Json)
  | toolResult (tool_use_id : String) (content : String) (is_error : Option Bool)

/-- `AnthropicMessage`. -/
structure AnthropicMessage where
  role : String
  content : List AnthropicContent

/-- `AnthropicTool`. -/
structure AnthropicTool where
  name : String
  description : String
  input_schema : Json

/-- `AnthropicRequest` (the wire shape sent over HTTP). -/
structure AnthropicRequest where
  model : String
  max_tokens : Nat
  temperature : Option Rat
  system : Option String
  messages : List AnthropicMessage
  tools : Option (List AnthropicTool)
  stream : Bool

/-- `AnthropicUsage`. -/
structure AnthropicUsage where
  input_tokens : Nat
  output_tokens : Nat

/-- `AnthropicResponse` (non-streaming response body). -/
structure AnthropicResponse where
  id : String
  content : List AnthropicContent
  stop_reason : Option String
  usage : Option AnthropicUsage

mutual

/-- `serde_json::Value::to_string()` — compact JSON rendering, used when
tool results are re-encoded as Anthropic `tool_result` content.  String
escaping is elided: no claim depends on the rendered text. -/
def Json.toCompact : Json → String
  | .null => "null"
  | .bool b => cond b "true" "false"
  | .num n => toString n
  | .str s => "\"" ++ s ++ "\""
  | .arr elems => "[" ++ jsonArrCompact elems ++ "]"
  | .obj fields => "\x7b" ++ jsonObjCompact fields ++ "\x7d"

/-- Comma-joined compact rendering of a JSON array's elements. -/
def jsonArrCompact : List Json → String
  | [] => ""
  | [j] => j.toCompact
  | j :: rest => j.toCompact ++ "," ++ jsonArrCompact rest

/-- Comma-joined compact rendering of a JSON object's fields. -/
def jsonObjCompact : List (String × Json) → String
  | [] => ""
  | [(k, v)] => "\"" ++ k ++ "\":" ++ v.toCompact
  | (k, v) :: rest => "\"" ++ k ++ "\":" ++ v.toCompact ++ "," ++ jsonObjCompact rest

end

/-- The per-System-message text: all text parts joined with one space
(`convert_messages`, System arm; the two revisions differ only by
`map` vs `filter_map`, with identical results). -/
def systemText (content : List SystemContent) : String :=
  String.intercalate " " (content.map fun c => match c with | .text t => t)

/-- `AnthropicProvider::convert_text_content` — User content parts; an
image must carry base64 data or conversion fails with a validation
error. -/
def convert_text_content : List UserContent → Except AiError (List AnthropicContent)
  | [] => .ok []
  | item :: rest =>
      match item with
      | .text t =>
          match convert_text_content rest with
          | .error e => .error e
          | .ok tail => .ok (.text t :: tail)
      | .image img =>
          match img.base64 with
          | some b64 =>
              match convert_text_content rest with
              | .error e => .error e
              | .ok tail =>
                  .ok (.image ⟨"base64", img.mime_type.getD "image/jpeg", b64⟩ :: tail)
          | none =>
              .error (.Validation
                (.InvalidValue "image" "Anthropic requires base64 encoded images"))

/-- `AnthropicProvider::convert_assistant_content` (its `Result` is
always `Ok`, so it is embedded as a pure function): skip empty text,
keep tool calls as `tool_use`. -/
def convert_assistant_content (content : List AssistantContent) : List AnthropicContent :=
  content.filterMap fun item =>
    match item with
    | .text t => if t.isEmpty then none else some (.text t)
    | .toolCall tc => some (.toolUse tc.id tc.name tc.arguments)

/-- `AnthropicProvider::convert_tools`. -/
def convert_tools (tools : List ToolDefinition) : List AnthropicTool :=
  tools.map fun t => ⟨t.name, t.description, t.parameters⟩

/-- The body of `AnthropicProvider::convert_messages`' `for` loop, with
the mutable `system_prompt` and message accumulator made explicit. -/
def convert_messages_go (system_prompt : Option String)
    (acc : List AnthropicMessage) :
    List Message → Except AiError (Option String × List AnthropicMessage)
  | [] => .ok (system_prompt, acc)
  | m :: rest =>
      match m with
      | .system content _ =>
          let text := systemText content
          convert_messages_go
            (if text.isEmpty then system_prompt else some text) acc rest
      | .user content _ =>
          match convert_text_content content with
          | .error e => .error e
          | .ok anthropic_content =>
              convert_messages_go system_prompt
                (acc ++ [⟨"user", anthropic_content⟩]) rest
      | .assistant content _ =>
          convert_messages_go system_prompt
            (acc ++ [⟨"assistant", convert_assistant_content content⟩]) rest
      | .tool tool_results _ =>
          convert_messages_go system_prompt
            (acc ++ tool_results.map fun r =>
              ⟨"user", [AnthropicContent.toolResult r.tool_call_id
                          r.result.toCompact (some r.is_error)]⟩) rest

/-- `AnthropicProvider::convert_messages`. -/
def convert_messages (messages : List Message) :
    Except AiError (Option String × List AnthropicMessage) :=
  convert_messages_go none [] messages

/-- The `stop_reason` → `FinishReason` mapping used by `generate` and by
`message_delta` stream events: unrecognized codes fall back to `Stop`. -/
def stop_reason_to_finish : Option String → FinishReason
  | some "end_turn" => .stop
  | some "max_tokens" => .length
  | some "tool_use" => .toolCalls
  | _ => .stop

/-- The response-content conversion inside `generate` (lines 289-306):
text and `tool_use` blocks are kept, anything else skipped. -/
def convert_response_content (content : List AnthropicContent) : List AssistantContent :=
  content.filterMap fun item =>
    match item with
    | .text t => some (.text t)
    | .toolUse id name input => some (.toolCall ⟨id, name, input⟩)
    | _ => none

/-- `AnthropicUsage` → `Usage`. -/
def anthropic_usage_to_usage (u : AnthropicUsage) : Usage :=
  ⟨u.input_tokens, u.output_tokens, u.input_tokens + u.output_tokens⟩

/-- `supports_vision`: `self.config.model.contains("claude-3")`. -/
def AnthropicProvider.supports_vision (cfg : AnthropicConfig) : Bool :=
  decide ("claude-3".toList <:+: cfg.model.toList)

/-- `AnthropicProvider::generate`, with the HTTP transport as the oracle
`net`.  Note that it converts and sends the request directly: it never
invokes `validate_request`. -/
def AnthropicProvider.generate (cfg : AnthropicConfig)
    (net : AnthropicRequest → Except AiError AnthropicResponse)
    (request : ChatRequest) : Except AiError ChatResponse :=
  match convert_messages request.messages with
  | .error e => .error e
  | .ok (system, messages) =>
      let anthropic_request : AnthropicRequest :=
        ⟨cfg.model, request.settings.max_tokens.getD 1000,
         request.settings.temperature, system, messages,
         request.tools.map convert_tools, false⟩
      match net anthropic_request with
      | .error e => .error e
      | .ok response =>
          .ok ⟨response.id,
               Message.assistant (convert_response_content response.content) none,
               stop_reason_to_finish response.stop_reason,
               response.usage.map anthropic_usage_to_usage,
               none⟩

/-! ### Streaming adapter -/

/-- `AnthropicStreamMessage` (dead fields elided). -/
structure AnthropicStreamMessage where
  id : String
  usage : Option AnthropicUsage

/-- `AnthropicStreamDelta` (dead fields elided). -/
structure AnthropicStreamDelta where
  type : String
  text : Option String
  thinking : Option String

/-- `AnthropicMessageDelta` (dead field elided). -/
structure AnthropicMessageDelta where
  stop_reason : Option String

/-- `AnthropicStreamError`. -/
structure AnthropicStreamError where
  type : String
  message : String

/-- `AnthropicStreamEventData` — the untagged payload union. -/
inductive AnthropicStreamEventData where
  | messageStart (message : AnthropicStreamMessage)
  | contentBlockStart (index : Nat)
  | contentBlockDelta (index : Nat) (delta : AnthropicStreamDelta)
  | contentBlockStop (index : Nat)
  | messageDelta (delta : AnthropicMessageDelta) (usage : Option AnthropicUsage)
  | messageStop
  | ping
  | error (error : AnthropicStreamError)
  | unknown

/-- `AnthropicStreamEvent` — `type` discriminator plus flattened data. -/
structure AnthropicStreamEvent where
  type : String
  data : AnthropicStreamEventData

/-- `AnthropicProvider::handle_stream_event_static`. -/
def handle_stream_event_static (event : AnthropicStreamEvent) :
    Except AiError ChatStreamChunk :=
  match event.type with
  | "message_start" =>
      match event.data with
      | .messageStart message =>
          .ok ⟨message.id, .assistant none, none,
               message.usage.map anthropic_usage_to_usage⟩
      | _ => .ok ⟨"stream", .assistant none, none, none⟩
  | "content_block_start" =>
      .ok ⟨"stream", .assistant none, none, none⟩
  | "content_block_delta" =>
      match event.data with
      | .contentBlockDelta _ delta =>
          let content : Option AssistantContent :=
            match delta.type with
            | "text_delta" => some (.text (delta.text.getD ""))
            | "input_json_delta" => none
            | "thinking_delta" => some (.text (delta.thinking.getD ""))
            | _ => none
          .ok ⟨"stream", .assistant content, none, none⟩
      | _ => .ok ⟨"stream", .assistant none, none, none⟩
  | "content_block_stop" =>
      .ok ⟨"stream", .assistant none, none, none⟩
  | "message_delta" =>
      match event.data with
      | .messageDelta delta usage =>
          .ok ⟨"stream", .assistant none,
               delta.stop_reason.map (fun reason => stop_reason_to_finish (some reason)),
               usage.map anthropic_usage_to_usage⟩
      | _ => .ok ⟨"stream", .assistant none, none, none⟩
  | "message_stop" =>
      .ok ⟨"stream", .assistant none, some .stop, none⟩
  | "ping" =>
      .ok ⟨"stream", .assistant none, none, none⟩
  | "error" =>
      match event.data with
      | .error err =>
          .error (.Provider (.ApiError "anthropic" 500 err.message))
      | _ =>
          .error (.Provider (.ApiError "anthropic" 500 "Unknown error"))
  | _ =>
      .ok ⟨"stream", .assistant none, none, none⟩

/-- `matches!(chunk.delta, MessageDelta::Assistant { content: None })`. -/
def is_empty_assistant_delta : MessageDelta → Bool
  | .assistant none => true
  | _ => false

/-- The visibility filter of `generate_stream`'s `filter_map` (lines
402-419): an `Ok` chunk is forwarded only when its delta is non-empty or
it carries a finish reason or usage; `Err` results are always
forwarded. -/
def filter_stream_result (result : Except AiError ChatStreamChunk) :
    Option (Except AiError ChatStreamChunk) :=
  match result with
  | .ok chunk =>
      if !is_empty_assistant_delta chunk.delta
          || chunk.finish_reason.isSome || chunk.usage.isSome then
        some (.ok chunk)
      else
        none
  | .error e => some (.error e)

/-- One SSE event through the `generate_stream` pipeline: `none` input
models an event whose data failed to parse as `AnthropicStreamEvent`
(`Err(_) => None` in the `filter_map`, i.e. ping/unknown payloads). -/
def process_sse_event (parsed : Option AnthropicStreamEvent) :
    Option (Except AiError ChatStreamChunk) :=
  match parsed with
  | some event => filter_stream_result (handle_stream_event_static event)
  | none => none

/-- The full externally visible chunk sequence produced from a list of
(possibly unparseable) SSE events. -/
def generate_stream_chunks (events : List (Option AnthropicStreamEvent)) :
    List (Except AiError ChatStreamChunk) :=
  events.filterMap process_sse_event

/-! ### stream_text step reconstruction (crates/agent/src/agent.rs,
lines 402-442): the driver forwards chunks in order, accumulates
assistant deltas, and breaks after the first chunk carrying a finish
reason. -/

/-- The assistant content accumulated for history during one step of
`stream_text` (the terminal chunk itself is still accumulated before the
break, and an `Err` item aborts the stream). -/
def accumulate_step_content :
    List (Except AiError ChatStreamChunk) → List AssistantContent
  | [] => []
  | .error _ :: _ => []
  | .ok chunk :: rest =>
      (match chunk.delta with
       | .assistant (some content) => [content]
       | _ => []) ++
      (if chunk.finish_reason.isSome then [] else accumulate_step_content rest)

/-- The assistant text deltas yielded by `stream_text` during one step,
strictly before the step's terminal chunk. -/
def step_delta_texts :
    List (Except AiError ChatStreamChunk) → List String
  | [] => []
  | .error _ :: _ => []
  | .ok chunk :: rest =>
      if chunk.finish_reason.isSome then []
      else
        (match chunk.delta with
         | .assistant (some (.text t)) => [t]
         | _ => []) ++ step_delta_texts rest

/-- Left-to-right concatenation of a list of strings. -/
def concat_texts : List String → String
  | [] => ""
  | t :: rest => t ++ concat_texts rest

/-- Concatenation of the text parts of assistant content. -/
def assistant_text (content : List AssistantContent) : String :=
  concat_texts (content.filterMap fun c =>
    match c with
    | .text t => some t
    | _ => none)

/-- The text of a `ChatResponse`'s message, `none` on provider error. -/
def generated_message_text : Except AiError ChatResponse → Option String
  | .ok response =>
      match response.message with
      | .assistant content _ => some (assistant_text content)
      | _ => some ""
  | .error _ => none

/-- The canonical Anthropic SSE stream for a response consisting of the
text blocks `blocks`: `message_start`, then per block
`content_block_start` / one `text_delta` / `content_block_stop`, then
`message_delta` carrying the stop reason and `message_stop`.  The
adapter ignores block indices, so they are passed as 0.
This definition gives the three events of one text block. -/
def text_block_events (t : String) : List AnthropicStreamEvent :=
  [⟨"content_block_start", .contentBlockStart 0⟩,
   ⟨"content_block_delta", .contentBlockDelta 0 ⟨"text_delta", some t, none⟩⟩,
   ⟨"content_block_stop", .contentBlockStop 0⟩]

/-- The two trailing events of a step: `message_delta` carrying the stop
reason (the step's terminal chunk) and `message_stop`. -/
def closing_events (stop_reason : String)
    (final_usage : Option AnthropicUsage) : List AnthropicStreamEvent :=
  [⟨"message_delta", .messageDelta ⟨some stop_reason⟩ final_usage⟩,
   ⟨"message_stop", .messageStop⟩]

/-- The canonical stream for text blocks, assembled. -/
def events_of_text_blocks (msg_id : String) (msg_usage : Option AnthropicUsage)
    (blocks : List String) (stop_reason : String)
    (final_usage : Option AnthropicUsage) : List AnthropicStreamEvent :=
  ⟨"message_start", .messageStart ⟨msg_id, msg_usage⟩⟩ ::
  blocks.flatMap text_block_events ++
  closing_events stop_reason final_usage

/-! ## Earlier single-crate revision (src/provider.rs, src/types.rs):
the `ChatTextGeneration` capability with `validate_request`.  Its error
type is the older string-payload `AiError`. -/

/-- The older revision's `AiError` (src/types.rs). -/
inductive AiErrorLegacy where
  | InvalidRequest (message : String)
  | AuthenticationError (message : String)
  | RateLimitExceeded (message : String) (retry_after : Option Nat)
  | ModelNotFound (model : String)
  | NetworkError (message : String)
  | ParseError (message : String)
  | ProviderError (provider message : String)
  | InvalidToolCall (message : String)
deriving DecidableEq

/-- The capability flags and name a `ChatTextGeneration` implementor
exposes (the part of the trait `validate_request` consults). -/
structure ProviderInfo where
  name : String
  supports_tools : Bool
  supports_vision : Bool
  supports_system_messages : Bool

/-- Does some user content part carry an image? -/
def has_image_part (content : List UserContent) : Bool :=
  content.any fun part =>
    match part with
    | .image _ => true
    | _ => false

/-- Does some assistant content part carry a tool call? -/
def has_tool_call_part (content : List AssistantContent) : Bool :=
  content.any fun part =>
    match part with
    | .toolCall _ => true
    | _ => false

/-- The message sweep of `validate_request` (src/provider.rs lines
53-98); the inner `for part in content` early returns are folded into
`has_image_part` / `has_tool_call_part`, which is equivalent because the
error does not depend on the offending part. -/
def validate_messages (p : ProviderInfo) : List Message → Except AiErrorLegacy Unit
  | [] => .ok ()
  | m :: rest =>
      match m with
      | .system _ _ =>
          if !p.supports_system_messages then
            .error (.InvalidRequest
              ("Provider " ++ p.name ++ " does not support system messages"))
          else validate_messages p rest
      | .user content _ =>
          if has_image_part content && !p.supports_vision then
            .error (.InvalidRequest
              ("Provider " ++ p.name ++ " does not support vision/images"))
          else validate_messages p rest
      | .assistant content _ =>
          if has_tool_call_part content && !p.supports_tools then
            .error (.InvalidRequest
              ("Provider " ++ p.name ++ " does not support tool calls"))
          else validate_messages p rest
      | .tool _ _ =>
          if !p.supports_tools then
            .error (.InvalidRequest
              ("Provider " ++ p.name ++ " does not support tool results"))
          else validate_messages p rest

/-- `ChatTextGeneration::validate_request` (src/provider.rs lines
45-101). -/
def validate_request (p : ProviderInfo) (request : ChatRequest) :
    Except AiErrorLegacy Unit :=
  if request.tools.isSome && !p.supports_tools then
    .error (.InvalidRequest
      ("Provider " ++ p.name ++ " does not support tool calling"))
  else
    validate_messages p request.messages

/-! ## Spec-side definitions (phrased from the specification's words,
for comparison against the embedded code) -/

/-- Modelled from the spec: one message is compatible with the provider
capability flags (system needs `supports_system_messages`, images need
`supports_vision`, tool calls and tool results need `supports_tools`). -/
def message_compatible (p : ProviderInfo) : Message → Bool
  | .system _ _ => p.supports_system_messages
  | .user content _ => !has_image_part content || p.supports_vision
  | .assistant content _ => !has_tool_call_part content || p.supports_tools
  | .tool _ _ => p.supports_tools

/-- Modelled from the spec: a request is compatible with the provider
capability flags. -/
def request_compatible (p : ProviderInfo) (request : ChatRequest) : Bool :=
  (!request.tools.isSome || p.supports_tools)
    && request.messages.all (message_compatible p)

/-- Spec-side description of the extracted system prompt: the
space-joined text of the last System message whose joined text is
non-empty. -/
def last_nonempty_system_text (messages : List Message) : Option String :=
  (messages.filterMap fun m =>
    match m with
    | .system content _ =>
        let t := systemText content
        if t.isEmpty then none else some t
    | _ => none).getLast?

/-! ## Concrete fixtures used by counterexamples and witnesses -/

/-- Projection: the `steps` field of a successful loop outcome. -/
def steps_of : Option (Except AiError AgentResponse) → Option Nat
  | some (.ok r) => some r.steps
  | _ => none

/-- A deterministic provider: always a plain assistant text message with
a non-terminating finish reason (`Length`) and no tool calls. -/
def constProviderResponse : ChatResponse :=
  ⟨"resp", Message.assistant [AssistantContent.text "hi"] none,
   FinishReason.length, none, none⟩

/-- A provider oracle that always returns `constProviderResponse`. -/
def constProvider : ChatRequest → Except AiError ChatResponse :=
  fun _ => .ok constProviderResponse

/-- Loop configuration: `constProvider`, no router, `MaxSteps(1)`. -/
def cfgC1 : GenerateConfig Unit :=
  { provider := constProvider, messages := [], settings := {},
    tools := none, tool_router := none,
    run_until := MaxSteps.should_continue 1 }

/-- A router holding only a definition-only (handler-less) tool. -/
def defOnlyRouter : BuiltToolRouter Unit :=
  ((ToolRouter.new Unit).register_definition "definition_only_tool" none none).with_state ()

/-- A tool call addressed at the definition-only tool. -/
def tcNoHandler : ToolCall := ⟨"call_1", "definition_only_tool", Json.obj []⟩

/-- Assistant message issuing the definition-only tool call. -/
def assistantToolCallMsg : Message :=
  .assistant [AssistantContent.toolCall tcNoHandler] none

/-- Response whose message issues the definition-only tool call. -/
def respC2 : ChatResponse := ⟨"resp2", assistantToolCallMsg, .toolCalls, none, none⟩

/-- Loop configuration that immediately hits the NoHandler outcome. -/
def cfgC2 : GenerateConfig Unit :=
  { provider := fun _ => .ok respC2, messages := [], settings := {},
    tools := none, tool_router := some defOnlyRouter,
    run_until := MaxSteps.should_continue 5 }

/-- A typed handler over `Nat` state: decode a JSON number, add the
state, serialize the sum back to JSON. -/
def natWrapper : ToolHandlerWrapper Nat Nat Nat :=
  { lockOk := true,
    decode := fun j =>
      match j with
      | .num n => .ok n.toNat
      | _ => .error (.InvalidInput "Failed to parse input"),
    run := fun s a => .ok (s + a),
    ser := fun b => some (.num b) }

/-- Router with one handler-backed tool and one definition-only tool,
bound to state 42. -/
def mixedRouter : BuiltToolRouter Nat :=
  (((ToolRouter.new Nat).register_infallible "add" none natWrapper
      (some (Json.obj []))).register_definition
    "definition_only_tool" none none).with_state 42

/-- A call to the handler-backed tool that succeeds. -/
def tcAdd : ToolCall := ⟨"call_a", "add", Json.num 5⟩

/-- A second call, after the successful one, that has no handler. -/
def tcNoHandler2 : ToolCall := ⟨"call_b", "definition_only_tool", Json.obj []⟩

/-- Assistant message issuing the success-then-NoHandler batch. -/
def assistantBatchMsg : Message :=
  .assistant [.toolCall tcAdd, .toolCall tcNoHandler2] none

/-- Response carrying the success-then-NoHandler batch. -/
def respC9 : ChatResponse := ⟨"resp9", assistantBatchMsg, .toolCalls, none, none⟩

/-- Loop configuration for the partial-batch-discard scenario. -/
def cfgC9 : GenerateConfig Nat :=
  { provider := fun _ => .ok respC9, messages := [], settings := {},
    tools := none, tool_router := some mixedRouter,
    run_until := MaxSteps.should_continue 5 }

/-- `natWrapper` with an unacquirable (poisoned) handler lock. -/
def lockedWrapper : ToolHandlerWrapper Nat Nat Nat :=
  { natWrapper with lockOk := false }

/-- `natWrapper` whose output cannot be serialized to JSON. -/
def unserializableWrapper : ToolHandlerWrapper Nat Nat Nat :=
  { natWrapper with ser := fun _ => none }

/-- An empty image content value. -/
def img0 : ImageContent := ⟨none, none, none⟩

/-- Two one-part System messages, "A" then "B". -/
def msgsAB : List Message :=
  [Message.system [SystemContent.text "A"] none,
   Message.system [SystemContent.text "B"] none]

/-- A network oracle that records being reached by failing with a
sentinel connection error. -/
def netProbe : AnthropicRequest → Except AiError AnthropicResponse :=
  fun _ => .error (.Network (.ConnectionFailed "network call reached"))

/-- A request with an image, incompatible with a non-vision model. -/
def visionIncompatRequest : ChatRequest :=
  ⟨[Message.user [UserContent.image ⟨none, some "AAAA", some "image/png"⟩] none],
   {}, none⟩

/-- Anthropic configuration for a model without vision support
(`"claude-2"` does not contain `"claude-3"`). -/
def claude2Config : AnthropicConfig :=
  ⟨"key", "https://api.anthropic.com", "claude-2", 3, 60⟩

/-- The capability flags the older-revision Anthropic provider reports
for a `claude-2` model: tools yes, vision no, system messages yes. -/
def claude2Info : ProviderInfo := ⟨"anthropic", true, false, true⟩

/-- The event-type strings `handle_stream_event_static` explicitly
matches on. -/
def handled_event_types : List String :=
  ["message_start", "content_block_start", "content_block_delta",
   "content_block_stop", "message_delta", "message_stop", "ping", "error"]

/-! ## Helper lemmas -/

/-- The batch flag is set exactly when some call of the batch takes the
NoHandler (`None`) outcome: every earlier call returns `Some` and is
consumed without breaking, so the scan reaches the first `None`. -/
theorem process_tool_calls_flag_iff (router : BuiltToolRouter σ)
    (tcs : List ToolCall) :
    (process_tool_calls router tcs).2 = true ↔
      ∃ tc ∈ tcs, router.execute_tool tc.name tc.arguments = none := by
  induction tcs with
  | nil => simp [process_tool_calls]
  | cons tc rest ih =>
      cases h : router.execute_tool tc.name tc.arguments with
      | none => simp [process_tool_calls, h]
      | some res =>
          cases res with
          | ok v => simp [process_tool_calls, h, ih]
          | error e => simp [process_tool_calls, h, ih]

/-- Unfolding of one loop iteration whose batch aborts: the loop returns
at once with the assistant message appended and nothing else. -/
theorem generate_text_go_abort {σ : Type} (cfg : GenerateConfig σ)
    (router : BuiltToolRouter σ) (fuel step : Nat) (messages : List Message)
    (tu : Usage) (hu : Bool) (resp : ChatResponse)
    (content : List AssistantContent) (md : Metadata)
    (hrouter : cfg.tool_router = some router)
    (hresp : cfg.provider ⟨messages, cfg.settings, cfg.tools⟩ = .ok resp)
    (hmsg : resp.message = .assistant content md)
    (hne : (tool_calls_of content).isEmpty = false)
    (hflag : (process_tool_calls router (tool_calls_of content)).2 = true) :
    generate_text_go cfg (fuel + 1) messages step tu hu =
      some (.ok ⟨messages ++ [resp.message], resp.message, step + 1,
                 resp.finish_reason,
                 if hu || resp.usage.isSome then
                   some (accumulate_usage tu resp.usage)
                 else none⟩) := by
  simp only [generate_text_go, hresp, hrouter, hmsg, hne, hflag]
  simp [hmsg]

/-- Unfolding of one loop iteration whose response carries no tool
calls: append the message and consult the termination strategy. -/
theorem generate_text_go_step_no_toolcalls {σ : Type} (cfg : GenerateConfig σ)
    (fuel step : Nat) (messages : List Message) (tu : Usage) (hu : Bool)
    (resp : ChatResponse)
    (hresp : cfg.provider ⟨messages, cfg.settings, cfg.tools⟩ = .ok resp)
    (hnc : tool_calls_of_message resp.message = []) :
    generate_text_go cfg (fuel + 1) messages step tu hu =
      if ¬ cfg.run_until step resp.finish_reason then
        some (.ok ⟨messages ++ [resp.message], resp.message, step + 1,
                   resp.finish_reason,
                   if hu || resp.usage.isSome then
                     some (accumulate_usage tu resp.usage)
                   else none⟩)
      else
        generate_text_go cfg fuel (messages ++ [resp.message]) (step + 1)
          (accumulate_usage tu resp.usage) (hu || resp.usage.isSome) := by
  cases hrt : cfg.tool_router with
  | none =>
      cases hm : resp.message <;>
        simp only [generate_text_go, hresp, hrt, hm]
  | some router =>
      cases hm : resp.message with
      | assistant content md =>
          have hempty : (tool_calls_of content).isEmpty = true := by
            rw [hm] at hnc
            simp only [tool_calls_of_message] at hnc
            simp [hnc]
          simp only [generate_text_go, hresp, hrt, hm, hempty]
          simp [hm]
      | system content md =>
          simp only [generate_text_go, hresp, hrt, hm]
      | user content md =>
          simp only [generate_text_go, hresp, hrt, hm]
      | tool trs md =>
          simp only [generate_text_go, hresp, hrt, hm]

/-! ## Claim theorems -/

/-- C8: every mutation helper preserves the role/content-part mapping:
`add_image` on a non-User message is a no-op, `add_tool_call` on a
non-Assistant message is a no-op, and `add_text` on an Assistant or Tool
message is a no-op.  (In this embedding a System message holding an
image part is not even representable: `Message.system` carries only
`SystemContent`, whose sole constructor is text — mirroring the Rust
enum.) -/
theorem message_mutators_preserve_role_content :
    (∀ (m : Message) (image : ImageContent),
        m.role ≠ "user" → m.add_image image = m)
    ∧ (∀ (m : Message) (tc : ToolCall),
        m.role ≠ "assistant" → m.add_tool_call tc = m)
    ∧ (∀ (m : Message) (text : String),
        (m.role = "assistant" ∨ m.role = "tool") → m.add_text text = m) := by
  refine ⟨fun m x h => ?_, fun m x h => ?_, fun m x h => ?_⟩ <;>
    cases m <;>
    simp_all [Message.role, Message.add_image, Message.add_tool_call,
      Message.add_text]

/-- C8 witness: concrete no-op instances — an image does not enter a
System message, a tool call does not enter a System message, text does
not enter a Tool message. -/
theorem message_mutators_preserve_role_content_witness :
    (Message.system [SystemContent.text "s"] none).add_image img0 =
      Message.system [SystemContent.text "s"] none
    ∧ (Message.system [SystemContent.text "s"] none).add_tool_call tcAdd =
      Message.system [SystemContent.text "s"] none
    ∧ (Message.tool [] none).add_text "x" = Message.tool [] none :=
  ⟨message_mutators_preserve_role_content.1 _ img0 (by decide),
   message_mutators_preserve_role_content.2.1 _ tcAdd (by decide),
   message_mutators_preserve_role_content.2.2 _ "x" (Or.inr rfl)⟩

/-- C10: when the per-handler lock cannot be acquired the erased call
returns `Err(StateError)`, and when the handler runs but its output does
not serialize it returns `Err(ExecutionError)`; through `execute_tool`
either surfaces as `Some(Err(..))`, which the agent loop records as an
`is_error` ToolResult like any other per-call failure. -/
theorem call_erased_errs_on_lock_or_serialize_failure {σ α β : Type}
    (w : ToolHandlerWrapper σ α β) (state : σ) (input : Json) :
    (w.lockOk = false →
        call_erased w state input =
          .error (.StateError "Failed to acquire handler lock"))
    ∧ (∀ a out, w.lockOk = true → w.decode input = .ok a →
        w.run state a = .ok out → w.ser out = none →
        call_erased w state input =
          .error (.ExecutionError "Failed to serialize result"))
    ∧ (∀ (r : BuiltToolRouter σ) name e,
        r.tools.lookup name = some (fun s j => call_erased w s j) →
        call_erased w r.state input = .error e →
        r.execute_tool name input = some (.error e))
    ∧ (∀ (r : BuiltToolRouter σ) (tc : ToolCall) rest e,
        r.execute_tool tc.name tc.arguments = some (.error e) →
        process_tool_calls r (tc :: rest) =
          (⟨tc.id, error_result_json e, true⟩ ::
             (process_tool_calls r rest).1,
           (process_tool_calls r rest).2)) := by
  refine ⟨fun hlock => ?_, fun a out hlock hdec hrun hser => ?_,
          fun r name e hlook hcall => ?_, fun r tc rest e hexec => ?_⟩
  · simp [call_erased, hlock]
  · simp [call_erased, ToolHandler.call, hlock, hdec, hrun, hser]
  · simp [BuiltToolRouter.execute_tool, hlook, hcall]
  · simp [process_tool_calls, hexec]

/-- C10 witness: the poisoned-lock wrapper yields `StateError`, the
non-serializable-output wrapper yields `ExecutionError`. -/
theorem call_erased_errs_on_lock_or_serialize_failure_witness :
    call_erased lockedWrapper 42 (Json.num 5) =
      .error (.StateError "Failed to acquire handler lock")
    ∧ call_erased unserializableWrapper 42 (Json.num 5) =
      .error (.ExecutionError "Failed to serialize result") :=
  ⟨(call_erased_errs_on_lock_or_serialize_failure lockedWrapper 42
      (Json.num 5)).1 rfl,
   (call_erased_errs_on_lock_or_serialize_failure unserializableWrapper 42
      (Json.num 5)).2.1 5 47 rfl rfl rfl rfl⟩

/-- C3: for a bound router holding one handler-backed tool and one
definition-only tool, `execute_tool` has the three-way outcome: the
handler-backed name returns `Some(Ok(v))` with `v` the handler output
serialized to JSON (when the input decodes and the handler succeeds),
the definition-only name returns `None` (NoHandler), and a wholly
unregistered name returns `Some(Err(NotFound))` whose message contains
the tool name. -/
theorem execute_tool_three_way_outcome {σ α β : Type} (state : σ)
    (w : ToolHandlerWrapper σ α β) (hname dname : String)
    (hdesc ddesc : Option String) (hschema dschema : Option Json)
    (input : Json) (hneq : dname ≠ hname)
    (router : BuiltToolRouter σ)
    (hrouter : router =
      (((ToolRouter.new σ).register_infallible hname hdesc w
          hschema).register_definition dname ddesc dschema).with_state state) :
    (∀ a out v, w.lockOk = true → w.decode input = .ok a →
        w.run state a = .ok out → w.ser out = some v →
        router.execute_tool hname input = some (.ok v))
    ∧ router.execute_tool dname input = none
    ∧ (∀ other, other ≠ hname → other ≠ dname →
        router.execute_tool other input =
          some (.error (.NotFound
            ("Tool " ++ squote ++ other ++ squote ++ " not found")))
        ∧ ∃ pre post,
            ("Tool " ++ squote ++ other ++ squote ++ " not found") =
              pre ++ other ++ post) := by
  subst hrouter
  refine ⟨fun a out v hlock hdec hrun hser => ?_, ?_, fun other h1 h2 => ⟨?_, ?_⟩⟩
  · simp [BuiltToolRouter.execute_tool, ToolRouter.with_state,
      ToolRouter.register_definition, ToolRouter.register_infallible,
      ToolRouter.new, List.lookup, call_erased, ToolHandler.call,
      hlock, hdec, hrun, hser]
  · have hb : (dname == hname) = false := beq_eq_false_iff_ne.mpr hneq
    simp [BuiltToolRouter.execute_tool, ToolRouter.with_state,
      ToolRouter.register_definition, ToolRouter.register_infallible,
      ToolRouter.new, List.lookup, hb]
  · have hb1 : (other == hname) = false := beq_eq_false_iff_ne.mpr h1
    have hb2 : (other == dname) = false := beq_eq_false_iff_ne.mpr h2
    simp [BuiltToolRouter.execute_tool, ToolRouter.with_state,
      ToolRouter.register_definition, ToolRouter.register_infallible,
      ToolRouter.new, List.lookup, hb1, hb2]
  · exact ⟨"Tool " ++ squote, squote ++ " not found", by
      simp [String.append_assoc]⟩

/-- C3 witness: on `mixedRouter` (state 42): `add` on input `5` returns
the serialized sum `47`, the definition-only tool returns the NoHandler
outcome, and an unregistered name returns NotFound naming the tool. -/
theorem execute_tool_three_way_outcome_witness :
    mixedRouter.execute_tool "add" (Json.num 5) = some (.ok (Json.num 47))
    ∧ mixedRouter.execute_tool "definition_only_tool" (Json.num 5) = none
    ∧ mixedRouter.execute_tool "unregistered_tool" (Json.num 5) =
        some (.error (.NotFound
          ("Tool " ++ squote ++ "unregistered_tool" ++ squote ++ " not found"))) :=
  have h := execute_tool_three_way_outcome 42 natWrapper "add"
    "definition_only_tool" none none (some (Json.obj [])) none (Json.num 5)
    (by decide) mixedRouter rfl
  ⟨h.1 5 47 (Json.num 47) rfl rfl rfl rfl, h.2.1,
   (h.2.2 "unregistered_tool" (by decide) (by decide)).1⟩

/-- C2: the loop aborts a step's tool-call batch exactly when some call
takes the NoHandler (`None`) outcome.  On abort it returns immediately
with `final_message` equal to the step's assistant message, the history
ending in that assistant message with no Tool message appended;
processing breaks at the first NoHandler whatever calls remain; and a
wholly unregistered name (NotFound) is instead recorded as an
`is_error` ToolResult for that one call, leaving the abort flag to the
rest of the batch. -/
theorem generate_text_noHandler_abort_iff {σ : Type} (cfg : GenerateConfig σ)
    (router : BuiltToolRouter σ) (fuel step : Nat) (messages : List Message)
    (tu : Usage) (hu : Bool) (resp : ChatResponse)
    (content : List AssistantContent) (md : Metadata)
    (hrouter : cfg.tool_router = some router)
    (hresp : cfg.provider ⟨messages, cfg.settings, cfg.tools⟩ = .ok resp)
    (hmsg : resp.message = .assistant content md)
    (hne : (tool_calls_of content).isEmpty = false) :
    ((process_tool_calls router (tool_calls_of content)).2 = true ↔
        ∃ tc ∈ tool_calls_of content,
          router.execute_tool tc.name tc.arguments = none)
    ∧ ((process_tool_calls router (tool_calls_of content)).2 = true →
        generate_text_go cfg (fuel + 1) messages step tu hu =
          some (.ok ⟨messages ++ [resp.message], resp.message, step + 1,
                     resp.finish_reason,
                     if hu || resp.usage.isSome then
                       some (accumulate_usage tu resp.usage)
                     else none⟩))
    ∧ (∀ (tc : ToolCall) (rest : List ToolCall),
        router.execute_tool tc.name tc.arguments = none →
        process_tool_calls router (tc :: rest) = ([], true))
    ∧ (∀ (tc : ToolCall) (rest : List ToolCall),
        router.tools.lookup tc.name = none →
        router.metadata.lookup tc.name = none →
        process_tool_calls router (tc :: rest) =
          (⟨tc.id,
            error_result_json (.NotFound
              ("Tool " ++ squote ++ tc.name ++ squote ++ " not found")),
            true⟩ :: (process_tool_calls router rest).1,
           (process_tool_calls router rest).2)) := by
  refine ⟨process_tool_calls_flag_iff router (tool_calls_of content),
          fun hflag => ?_, fun tc rest hnone => ?_, fun tc rest ht hm => ?_⟩
  · exact generate_text_go_abort cfg router fuel step messages tu hu resp
      content md hrouter hresp hmsg hne hflag
  · simp [process_tool_calls, hnone]
  · simp [process_tool_calls, BuiltToolRouter.execute_tool, ht, hm]

/-- C2 witness: a provider that immediately calls the definition-only
tool makes the loop return after one step with the assistant message as
final message and history, and no Tool message. -/
theorem generate_text_noHandler_abort_iff_witness :
    generate_text_go cfgC2 3 [] 0 ⟨0, 0, 0⟩ false =
      some (.ok ⟨[assistantToolCallMsg], assistantToolCallMsg, 1,
                 FinishReason.toolCalls, none⟩) :=
  (generate_text_noHandler_abort_iff cfgC2 defOnlyRouter 2 0 [] ⟨0, 0, 0⟩
      false respC2 [AssistantContent.toolCall tcNoHandler] none
      rfl rfl rfl rfl).2.1 rfl

/-- C9: when a NoHandler outcome aborts a batch, ToolResults already
produced for earlier calls of the same batch are discarded: the history
returned is exactly the prior messages plus the assistant message — no
Tool message at all, not even a partial one — although the prefix of
the batch before the NoHandler call did produce one success result per
call. -/
theorem noHandler_abort_discards_partial_results {σ : Type}
    (cfg : GenerateConfig σ) (router : BuiltToolRouter σ)
    (fuel step : Nat) (messages : List Message) (tu : Usage) (hu : Bool)
    (resp : ChatResponse) (content : List AssistantContent) (md : Metadata)
    (tcs₁ : List ToolCall) (tc₀ : ToolCall) (tcs₂ : List ToolCall)
    (hrouter : cfg.tool_router = some router)
    (hresp : cfg.provider ⟨messages, cfg.settings, cfg.tools⟩ = .ok resp)
    (hmsg : resp.message = .assistant content md)
    (hbatch : tool_calls_of content = tcs₁ ++ tc₀ :: tcs₂)
    (hok : ∀ tc ∈ tcs₁, ∃ v,
        router.execute_tool tc.name tc.arguments = some (.ok v))
    (hnh : router.execute_tool tc₀.name tc₀.arguments = none) :
    (process_tool_calls router (tool_calls_of content)).1.length = tcs₁.length
    ∧ generate_text_go cfg (fuel + 1) messages step tu hu =
        some (.ok ⟨messages ++ [resp.message], resp.message, step + 1,
                   resp.finish_reason,
                   if hu || resp.usage.isSome then
                     some (accumulate_usage tu resp.usage)
                   else none⟩) := by
  have hne : (tool_calls_of content).isEmpty = false := by
    rw [hbatch]; cases tcs₁ <;> simp
  have hflag : (process_tool_calls router (tool_calls_of content)).2 = true :=
    (process_tool_calls_flag_iff router (tool_calls_of content)).mpr
      ⟨tc₀, by rw [hbatch]; simp, hnh⟩
  refine ⟨?_, generate_text_go_abort cfg router fuel step messages tu hu resp
      content md hrouter hresp hmsg hne hflag⟩
  rw [hbatch]
  clear hbatch hflag hne
  induction tcs₁ with
  | nil => simp [process_tool_calls, hnh]
  | cons a l ih =>
      obtain ⟨v, hv⟩ := hok a (by simp)
      simp only [List.cons_append, process_tool_calls, hv, List.length_cons]
      exact congrArg Nat.succ (ih fun tc htc => hok tc (by simp [htc]))

/-- C9 witness: batch = [successful `add` call, NoHandler call]; exactly
one partial result was produced and then discarded: the loop returns
with only the assistant message in history. -/
theorem noHandler_abort_discards_partial_results_witness :
    (process_tool_calls mixedRouter
        (tool_calls_of [.toolCall tcAdd, .toolCall tcNoHandler2])).1.length = 1
    ∧ generate_text_go cfgC9 4 [] 0 ⟨0, 0, 0⟩ false =
        some (.ok ⟨[assistantBatchMsg], assistantBatchMsg, 1,
                   FinishReason.toolCalls, none⟩) :=
  noHandler_abort_discards_partial_results cfgC9 mixedRouter 3 0 [] ⟨0, 0, 0⟩
    false respC9 [.toolCall tcAdd, .toolCall tcNoHandler2] none
    [tcAdd] tcNoHandler2 [] rfl rfl rfl rfl
    (fun tc htc => by
      simp at htc; subst htc; exact ⟨Json.num 47, rfl⟩) rfl

/-- With `MaxSteps(n)` and a provider that always succeeds without tool
calls, the loop started at index `step ≤ n` returns after iterations
`step, step+1, …, n` — that is, `n + 1 - step` further provider calls —
with `steps = n + 1`. -/
theorem generate_text_go_maxsteps {σ : Type} (cfg : GenerateConfig σ) (n : Nat)
    (hrun : cfg.run_until = MaxSteps.should_continue n)
    (hp : ∀ req, ∃ resp, cfg.provider req = .ok resp ∧
        tool_calls_of_message resp.message = []) :
    ∀ fuel step messages tu hu, step ≤ n → n + 1 ≤ fuel + step →
      ∃ r, generate_text_go cfg fuel messages step tu hu = some (.ok r) ∧
           r.steps = n + 1 ∧
           r.messages.length = messages.length + (n + 1 - step) := by
  intro fuel
  induction fuel with
  | zero => intro step messages tu hu hstep hfuel; omega
  | succ fuel ih =>
      intro step messages tu hu hstep hfuel
      obtain ⟨resp, hresp, hnc⟩ := hp ⟨messages, cfg.settings, cfg.tools⟩
      rw [generate_text_go_step_no_toolcalls cfg fuel step messages tu hu resp
        hresp hnc]
      by_cases hlt : step < n
      · have hcont : cfg.run_until step resp.finish_reason = true := by
          rw [hrun]; simpa [MaxSteps.should_continue] using hlt
        rw [if_neg (by simp [hcont])]
        obtain ⟨r, hr, hsteps, hlen⟩ :=
          ih (step + 1) (messages ++ [resp.message])
            (accumulate_usage tu resp.usage) (hu || resp.usage.isSome)
            (by omega) (by omega)
        refine ⟨r, hr, hsteps, ?_⟩
        simp only [List.length_append, List.length_cons, List.length_nil] at hlen
        omega
      · have hstop : cfg.run_until step resp.finish_reason = false := by
          rw [hrun]; simp [MaxSteps.should_continue]; omega
        rw [if_pos (by simp [hstop])]
        have hsn : step = n := by omega
        exact ⟨_, rfl, by simp [hsn], by simp [hsn]⟩

/-- C1 (amended): for every n ≥ 1, the `generate_text` loop with
`MaxSteps(n)` against a provider that always returns successfully with
no tool calls executes exactly n + 1 provider steps — one more than the
claim's n — and returns `steps = n + 1`, because `should_continue`
receives the 0-based index of the step just completed and still returns
true for index n - 1, so iteration n (the (n+1)-th step) runs before
the check first fails at index n. -/
theorem generate_text_maxSteps_runs_succ_steps {σ : Type}
    (cfg : GenerateConfig σ) (n fuel : Nat) (hn : 1 ≤ n)
    (hrun : cfg.run_until = MaxSteps.should_continue n)
    (hp : ∀ req, ∃ resp, cfg.provider req = .ok resp ∧
        tool_calls_of_message resp.message = [])
    (hfuel : n + 1 ≤ fuel) :
    ∃ r, generate_text cfg fuel = some (.ok r) ∧ r.steps = n + 1 ∧
         r.messages.length = cfg.messages.length + (n + 1) :=
  match generate_text_go_maxsteps cfg n hrun hp fuel 0 cfg.messages
      ⟨0, 0, 0⟩ false (Nat.le_of_lt (Nat.lt_of_lt_of_le hn (Nat.le_refl n)))
      (by omega) with
  | ⟨r, hr, hsteps, hlen⟩ => ⟨r, hr, hsteps, by simpa using hlen⟩

/-- C1 counterexample: with `MaxSteps(1)` and a provider that always
returns the non-terminating reason `Length` and no tool calls, the loop
returns `steps = 2`, not `steps = 1` as the claim states. -/
theorem maxSteps_one_runs_two_steps :
    steps_of (generate_text cfgC1 10) = some 2 ∧
      steps_of (generate_text cfgC1 10) ≠ some 1 :=
  ⟨rfl, by decide⟩

/-- C1 witness: the amended count at n = 1 with fuel 2. -/
theorem generate_text_maxSteps_runs_succ_steps_witness :
    ∃ r, generate_text cfgC1 2 = some (.ok r) ∧ r.steps = 1 + 1 ∧
         r.messages.length = cfgC1.messages.length + (1 + 1) :=
  generate_text_maxSteps_runs_succ_steps cfgC1 1 2 (by decide) rfl
    (fun _req => ⟨constProviderResponse, rfl, rfl⟩) (by decide)

/-- `getLast?` of a cons, written with a right fallback. -/
theorem getLast?_orElse_cons {α : Type} (a : α) (l : List α) :
    (l.getLast? <|> some a) = (a :: l).getLast? := by
  cases l with
  | nil => rfl
  | cons b l' =>
      cases hx : (b :: l').getLast? with
      | none => rw [List.getLast?_eq_none_iff] at hx; cases hx
      | some v => simp [List.getLast?_cons_cons, hx]

/-- Invariant of the `convert_messages` sweep: on success, the extracted
system prompt is the last non-empty space-joined System text, falling
back to the incoming accumulator value. -/
theorem convert_messages_go_system_prompt (msgs : List Message) :
    ∀ (sys : Option String) (acc : List AnthropicMessage)
      (out : Option String × List AnthropicMessage),
      convert_messages_go sys acc msgs = .ok out →
      out.1 = (last_nonempty_system_text msgs <|> sys) := by
  induction msgs with
  | nil =>
      intro sys acc out h
      simp only [convert_messages_go, Except.ok.injEq] at h
      simp [← h, last_nonempty_system_text]
  | cons m rest ih =>
      intro sys acc out h
      cases m with
      | system content md =>
          simp only [convert_messages_go] at h
          by_cases he : (systemText content).isEmpty
          · rw [if_pos he] at h
            have := ih sys acc out h
            simp [last_nonempty_system_text, this, he]
          · rw [if_neg he] at h
            have := ih (some (systemText content)) acc out h
            rw [this]
            simp only [last_nonempty_system_text, List.filterMap_cons]
            rw [if_neg he]
            exact getLast?_orElse_cons _ _
      | user content md =>
          simp only [convert_messages_go] at h
          cases hc : convert_text_content content with
          | error e => rw [hc] at h; cases h
          | ok anthropic_content =>
              rw [hc] at h
              have := ih sys _ out h
              simpa [last_nonempty_system_text] using this
      | assistant content md =>
          simp only [convert_messages_go] at h
          have := ih sys _ out h
          simpa [last_nonempty_system_text] using this
      | tool trs md =>
          simp only [convert_messages_go] at h
          have := ih sys _ out h
          simpa [last_nonempty_system_text] using this

/-- C5 (amended): when converting to the wire shape, within each System
message the text parts are joined with a single space, and the extracted
single optional system-prompt string is the joined text of the **last**
System message whose joined text is non-empty — the text of earlier
System messages is discarded, not concatenated across the
conversation. -/
theorem convert_messages_system_prompt_eq_last_nonempty
    (messages : List Message) (out : Option String × List AnthropicMessage)
    (h : convert_messages messages = .ok out) :
    out.1 = last_nonempty_system_text messages := by
  have := convert_messages_go_system_prompt messages none [] out h
  simpa using this

/-- C5 counterexample: for the conversation [System "A", System "B"] the
extracted system prompt is "B" — the earlier System text "A" is dropped,
so all System-message text is not concatenated into one string. -/
theorem convert_messages_system_text_not_concatenated :
    convert_messages msgsAB = .ok (some "B", []) ∧
      (some "B" : Option String) ≠ some "A B" :=
  ⟨rfl, by decide⟩

/-- C5 witness: the amended description evaluated on [System "A",
System "B"]. -/
theorem convert_messages_system_prompt_eq_last_nonempty_witness :
    ((some "B" : Option String), ([] : List AnthropicMessage)).1 =
      last_nonempty_system_text msgsAB :=
  convert_messages_system_prompt_eq_last_nonempty msgsAB (some "B", []) rfl

/-- C6: the streaming pipeline is forward-compatible: an SSE event whose
data fails to parse is filtered out, an event whose type string is
outside the explicitly matched set is mapped to an empty chunk and
filtered out, a ping is filtered out — none of these terminate the
sequence or yield an `Err` item — and any `Ok` chunk that does reach the
caller with an empty assistant delta carries a finish reason or
usage. -/
theorem stream_adapter_ignores_unknown_events :
    (process_sse_event none = none)
    ∧ (∀ (t : String) (d : AnthropicStreamEventData),
        t ∉ handled_event_types → process_sse_event (some ⟨t, d⟩) = none)
    ∧ (∀ d, process_sse_event (some ⟨"ping", d⟩) = none)
    ∧ (∀ ev c, process_sse_event (some ev) = some (.ok c) →
        is_empty_assistant_delta c.delta = true →
        (c.finish_reason.isSome || c.usage.isSome) = true) := by
  refine ⟨rfl, fun t d ht => ?_, fun d => rfl, fun ev c h hempty => ?_⟩
  · simp only [handled_event_types, List.mem_cons, List.not_mem_nil,
      or_false, not_or] at ht
    obtain ⟨h1, h2, h3, h4, h5, h6, h7, h8⟩ := ht
    simp only [process_sse_event, handle_stream_event_static]
    simp_all [filter_stream_result, is_empty_assistant_delta]
  · simp only [process_sse_event] at h
    cases hh : handle_stream_event_static ev with
    | error e => rw [hh] at h; simp [filter_stream_result] at h
    | ok chunk =>
        rw [hh] at h
        simp only [filter_stream_result] at h
        by_cases hcond : (!is_empty_assistant_delta chunk.delta
            || chunk.finish_reason.isSome || chunk.usage.isSome) = true
        · rw [if_pos hcond] at h
          have hc : chunk = c := by
            simpa using h
          subst hc
          simpa [hempty] using hcond
        · rw [if_neg hcond] at h
          cases h

/-- C6 witness: a hypothetical future event type and an unparseable
event are both invisible to the consumer, as is a ping. -/
theorem stream_adapter_ignores_unknown_events_witness :
    process_sse_event (some ⟨"some_future_event_type", .unknown⟩) = none
    ∧ process_sse_event (some ⟨"ping", .ping⟩) = none
    ∧ process_sse_event none = none :=
  ⟨stream_adapter_ignores_unknown_events.2.1 "some_future_event_type" .unknown
      (by decide),
   stream_adapter_ignores_unknown_events.2.2.1 .ping,
   stream_adapter_ignores_unknown_events.1⟩

/-- `validate_messages` succeeds exactly when every message is
compatible with the capability flags. -/
theorem validate_messages_ok_iff (p : ProviderInfo) (msgs : List Message) :
    validate_messages p msgs = .ok () ↔
      msgs.all (message_compatible p) = true := by
  induction msgs with
  | nil => simp [validate_messages]
  | cons m rest ih =>
      cases m with
      | system c md =>
          by_cases h : p.supports_system_messages <;>
            simp [validate_messages, message_compatible, h, ih]
      | user c md =>
          by_cases hi : has_image_part c = true
          · by_cases hv : p.supports_vision = true
            · simp [validate_messages, message_compatible, hi, hv, ih]
            · have hv2 : p.supports_vision = false := by simpa using hv
              simp [validate_messages, message_compatible, hi, hv2, ih]
          · have hi2 : has_image_part c = false := by simpa using hi
            simp [validate_messages, message_compatible, hi2, ih]
      | assistant c md =>
          by_cases hc : has_tool_call_part c = true
          · by_cases hs : p.supports_tools = true
            · simp [validate_messages, message_compatible, hc, hs, ih]
            · have hs2 : p.supports_tools = false := by simpa using hs
              simp [validate_messages, message_compatible, hc, hs2, ih]
          · have hc2 : has_tool_call_part c = false := by simpa using hc
            simp [validate_messages, message_compatible, hc2, ih]
      | tool trs md =>
          by_cases h : p.supports_tools <;>
            simp [validate_messages, message_compatible, h, ih]

/-- C7 (amended): `validate_request` is a purely local check that
succeeds exactly when the request is compatible with the provider's
capability flags (tools present need `supports_tools`, System messages
need `supports_system_messages`, images need `supports_vision`, and
likewise assistant tool calls and Tool messages need `supports_tools`).
However, neither `generate` nor `generate_stream` invokes it: an
incompatible request proceeds to the network call unless the caller runs
`validate_request` itself (see the counterexample theorem). -/
theorem validate_request_ok_iff_compatible (p : ProviderInfo)
    (request : ChatRequest) :
    validate_request p request = .ok () ↔
      request_compatible p request = true := by
  by_cases ht : request.tools.isSome = true
  · by_cases hs : p.supports_tools = true
    · simp [validate_request, request_compatible, ht, hs,
        validate_messages_ok_iff]
    · have hs2 : p.supports_tools = false := by simpa using hs
      simp [validate_request, request_compatible, ht, hs2,
        validate_messages_ok_iff]
  · have ht2 : request.tools.isSome = false := by simpa using ht
    simp [validate_request, request_compatible, ht2,
      validate_messages_ok_iff]

/-- C7 counterexample: `generate` raises no validation error before the
network call.  With the non-vision model `claude-2`, a request carrying
an image is converted and handed to the HTTP transport: the network
oracle's sentinel error comes back unchanged, while `validate_request`
(which nothing in `generate`/`generate_stream` calls) would have
rejected the request locally. -/
theorem generate_reaches_network_without_validation :
    AnthropicProvider.supports_vision claude2Config = false
    ∧ AnthropicProvider.generate claude2Config netProbe visionIncompatRequest =
        .error (.Network (.ConnectionFailed "network call reached"))
    ∧ validate_request claude2Info visionIncompatRequest =
        .error (.InvalidRequest
          "Provider anthropic does not support vision/images") :=
  ⟨by decide, rfl, rfl⟩

/-- The chunks of one text block are exactly one visible text-delta
chunk: block start/stop are filtered out, and the delta is non-terminal,
so the step texts prepend the block's text. -/
theorem step_delta_texts_block_events (blocks : List String)
    (rest : List (Option AnthropicStreamEvent)) :
    step_delta_texts (generate_stream_chunks
        ((blocks.flatMap text_block_events).map some ++ rest))
      = blocks ++ step_delta_texts (generate_stream_chunks rest) := by
  induction blocks with
  | nil => simp
  | cons t bs ih =>
      have hstart : process_sse_event
          (some ⟨"content_block_start", .contentBlockStart 0⟩) = none := rfl
      have hdelta : process_sse_event
          (some ⟨"content_block_delta",
                 .contentBlockDelta 0 ⟨"text_delta", some t, none⟩⟩)
          = some (.ok ⟨"stream", .assistant (some (.text t)), none, none⟩) := rfl
      have hstop : process_sse_event
          (some ⟨"content_block_stop", .contentBlockStop 0⟩) = none := rfl
      simp only [List.flatMap_cons, text_block_events, List.append_assoc,
        List.map_append, List.map_cons, List.map_nil, generate_stream_chunks,
        List.filterMap_append, List.filterMap_cons, List.filterMap_nil,
        hstart, hdelta, hstop] at ih ⊢
      simpa [step_delta_texts] using ih

/-- The closing `message_delta` chunk carries the finish reason, so the
step's delta texts end there. -/
theorem step_delta_texts_closing (stop_reason : String)
    (final_usage : Option AnthropicUsage) :
    step_delta_texts (generate_stream_chunks
        ((closing_events stop_reason final_usage).map some)) = [] := rfl

/-- `generate`'s response conversion of pure text blocks reproduces the
blocks' concatenated text. -/
theorem assistant_text_text_blocks (blocks : List String) :
    assistant_text (convert_response_content
        (blocks.map AnthropicContent.text)) = concat_texts blocks := by
  induction blocks with
  | nil => rfl
  | cons t bs ih =>
      simp only [assistant_text, convert_response_content, List.map_cons,
        List.filterMap_cons] at ih ⊢
      simp only [concat_texts]
      exact congrArg (fun s => t ++ s) ih

/-- C4: streaming/non-streaming equivalence of the reconstructed text.
For the equivalent deterministic provider pair — the non-streaming
response whose content is the text blocks `blocks`, and the canonical
SSE stream for those same blocks — the concatenation of all assistant
text deltas yielded before the step's terminal chunk equals the text of
the assistant message `generate` produces (which is what the
`generate_text` driver appends for the step). -/
theorem stream_deltas_match_generate_text_equiv
    (cfg : AnthropicConfig) (blocks : List String) (msg_id : String)
    (msg_usage final_usage : Option AnthropicUsage) (stop_reason : String)
    (resp_id : String) (resp_stop : Option String)
    (resp_usage : Option AnthropicUsage) :
    concat_texts (step_delta_texts (generate_stream_chunks
        ((events_of_text_blocks msg_id msg_usage blocks stop_reason
            final_usage).map some)))
      = concat_texts blocks
    ∧ generated_message_text
        (AnthropicProvider.generate cfg
          (fun _ => .ok ⟨resp_id, blocks.map AnthropicContent.text,
                         resp_stop, resp_usage⟩)
          ⟨[], {}, none⟩)
      = some (concat_texts blocks) := by
  constructor
  · have hmid := step_delta_texts_block_events blocks
      ((closing_events stop_reason final_usage).map some)
    have hclose := step_delta_texts_closing stop_reason final_usage
    simp only [generate_stream_chunks] at hmid hclose
    cases msg_usage with
    | none =>
        have hhead : process_sse_event
            (some ⟨"message_start", .messageStart ⟨msg_id, none⟩⟩) = none := rfl
        simp only [events_of_text_blocks, List.map_cons, List.map_append,
          List.cons_append, generate_stream_chunks]
        rw [List.filterMap_cons_none hhead, hmid, hclose, List.append_nil]
    | some u =>
        have hhead : process_sse_event
            (some ⟨"message_start", .messageStart ⟨msg_id, some u⟩⟩)
            = some (.ok ⟨msg_id, .assistant none, none,
                         some (anthropic_usage_to_usage u)⟩) := rfl
        simp only [events_of_text_blocks, List.map_cons, List.map_append,
          List.cons_append, generate_stream_chunks]
        rw [List.filterMap_cons_some hhead]
        simp only [step_delta_texts, Option.isSome_none, Bool.false_eq_true,
          if_false, List.nil_append]
        rw [hmid, hclose, List.append_nil]
  · simp only [AnthropicProvider.generate, convert_messages,
      convert_messages_go, generated_message_text]
    rw [assistant_text_text_blocks]
